import Mathlib

/-!
Shallow embedding of `src/take_screenshots.py`: a command-line utility that
rasterizes a PDF into page images and saves each page as a JPEG file.

The external collaborators (the pdf2image rasterizer, the PIL image codec,
and the file system) are modelled as an oracle supplying their outcomes,
and the script itself is embedded as a pure function that, given the
oracle, returns the value it would return together with the ordered trace
of side effects it performs (library calls, file writes, console output).
A failed library call performs no file-system effect and is represented by
the oracle returning an error, which the embedded code handles exactly
where the Python `try/except` does.
-/

/-- An in-memory raster image, as produced by `convert_from_path` and
consumed by PIL: a color mode string (e.g. "RGB", "RGBA", "P") plus an
abstract identifier for the pixel content. -/
structure Image where
  mode : String
  content : Nat
deriving DecidableEq

/-- PIL `Image.convert(m)`: same pixel content, new color mode. -/
def Image.convert (img : Image) (m : String) : Image :=
  { img with mode := m }

/-- One observable side effect of a run of the script. -/
inductive Effect where
  /-- The call `convert_from_path(path, dpi=...)`. -/
  | convertFromPath (path : String) (dpi : Nat)
  /-- A successful `os.makedirs(dir, exist_ok=...)`. -/
  | makedirs (dir : String) (exist_ok : Bool)
  /-- A successful `image.save(path, format, quality=..., optimize=...)`. -/
  | save (path : String) (format : String) (quality : Nat) (optimize : Bool) (img : Image)
  /-- A line of text printed to standard output. -/
  | output (msg : String)
deriving DecidableEq

/-- Outcomes of the external calls, fixed before the run: the result of
`convert_from_path` (page images in order, or the exception message), the
outcome of `os.makedirs` (`some msg` if it raises), and the outcome of
saving the i-th page (1-based; `some msg` if `image.save` raises). -/
structure Oracle where
  rasterize : Except String (List Image)
  makedirsResult : Option String
  saveResult : Nat → Option String

/-- Python's `f"{i:02d}"`: decimal digits of `i`, zero-padded on the left
to a minimum width of 2. -/
def pad2 (i : Nat) : String :=
  if i < 10 then "0" ++ Nat.repr i else Nat.repr i

/-- Whether a path string begins with the separator '/'. -/
def strStartsWithSep (s : String) : Bool :=
  match s.data with
  | [] => false
  | c :: _ => c == '/'

/-- Whether a path string ends with the separator '/'. -/
def strEndsWithSep (s : String) : Bool :=
  match s.data.getLast? with
  | none => false
  | some c => c == '/'

/-- POSIX `os.path.join(a, b)`: `b` if it is absolute; otherwise `a`
followed by `b`, inserting '/' unless `a` is empty or already ends in one. -/
def ospath_join (a b : String) : String :=
  if strStartsWithSep b then b
  else if a = "" ∨ strEndsWithSep a then a ++ b
  else a ++ "/" ++ b

/-- The file name of the i-th page: `f"page_{i:02d}.jpg"`. -/
def pageFileName (i : Nat) : String :=
  "page_" ++ pad2 i ++ ".jpg"

/-- The save loop of `extract_pdf_pages_as_jpg`, from page index `i` on:
returns the exception message of the first failing `image.save` (if any)
together with the effects performed.  A page is converted to RGB first
when its mode is not "RGB"; a failing save performs no effect and stops
the loop (the exception escapes to the enclosing `try`). -/
def saveLoop (output_dir : String) (o : Oracle) : Nat → List Image → Option String × List Effect
  | _, [] => (none, [])
  | i, image :: rest =>
    let output_path := ospath_join output_dir (pageFileName i)
    let image2 := if image.mode ≠ "RGB" then image.convert "RGB" else image
    match o.saveResult i with
    | some e => (some e, [])
    | none =>
      let r := saveLoop output_dir o (i + 1) rest
      (r.1, Effect.save output_path "JPEG" 95 true image2
              :: Effect.output ("Saved: " ++ output_path) :: r.2)

/-- `extract_pdf_pages_as_jpg(pdf_path, output_dir)`: rasterize the whole
PDF at 300 DPI, create the output directory, save each page as a JPEG,
and return the page count; any exception is caught, an error message is
printed, and 0 is returned.  The second component is the effect trace. -/
def extract_pdf_pages_as_jpg (pdf_path output_dir : String) (o : Oracle) : Nat × List Effect :=
  let pre := [Effect.output ("Converting PDF: " ++ pdf_path),
              Effect.convertFromPath pdf_path 300]
  match o.rasterize with
  | Except.error e =>
      (0, pre ++ [Effect.output ("Error extracting PDF pages: " ++ e)])
  | Except.ok images =>
    match o.makedirsResult with
    | some e =>
        (0, pre ++ [Effect.output ("Error extracting PDF pages: " ++ e)])
    | none =>
      let r := saveLoop output_dir o 1 images
      match r.1 with
      | some e =>
          (0, pre ++ [Effect.makedirs output_dir true] ++ r.2
                ++ [Effect.output ("Error extracting PDF pages: " ++ e)])
      | none =>
          (images.length,
           pre ++ [Effect.makedirs output_dir true] ++ r.2
             ++ [Effect.output ("\nSuccessfully extracted " ++ Nat.repr images.length
                   ++ " pages to " ++ output_dir)])

/-- Result of a run of the `__main__` block: the process exit code and the
effect trace. -/
structure CLIResult where
  exitCode : Nat
  trace : List Effect
deriving DecidableEq

/-- The `__main__` block: parse arguments (`outputArg = none` when
`--output`/`-o` is omitted, so the argparse default "pdf_images" is used),
check that the PDF path exists (`pathExists` is the oracle for
`os.path.exists`), exit with code 1 if not, otherwise run the extractor
and print the success or failure summary. -/
def mainEntry (pdf_file : String) (outputArg : Option String) (pathExists : Bool)
    (o : Oracle) : CLIResult :=
  let output_directory := outputArg.getD "pdf_images"
  if pathExists = false then
    { exitCode := 1,
      trace := [Effect.output ("Error: PDF file '" ++ pdf_file ++ "' not found!")] }
  else
    let r := extract_pdf_pages_as_jpg pdf_file output_directory o
    if r.1 > 0 then
      { exitCode := 0,
        trace := r.2 ++ [Effect.output ("\n✅ Successfully extracted " ++ Nat.repr r.1
                             ++ " pages from " ++ pdf_file),
                         Effect.output ("📁 Images saved in: " ++ output_directory ++ "/")] }
    else
      { exitCode := 0,
        trace := r.2 ++ [Effect.output "❌ Failed to extract pages"] }

/-- A file system state: which directories exist and which files exist
(with the image stored in them). -/
structure FS where
  dirExists : String → Bool
  files : String → Option Image

/-- How one effect changes the file system: `makedirs` marks the directory
as existing, `save` writes the file, console output and the rasterizer
call leave the file system unchanged.  No effect ever removes anything. -/
def applyEffect (fs : FS) : Effect → FS
  | Effect.makedirs d _ =>
      { fs with dirExists := fun q => if q = d then true else fs.dirExists q }
  | Effect.save p _ _ _ img =>
      { fs with files := fun q => if q = p then some img else fs.files q }
  | _ => fs

/-- Apply a whole effect trace, in order, to a file system state. -/
def applyEffects (fs : FS) (tr : List Effect) : FS :=
  tr.foldl applyEffect fs

/-- The paths of the files written by a trace, in order. -/
def savePaths (tr : List Effect) : List String :=
  tr.filterMap fun ef => match ef with
    | Effect.save p _ _ _ _ => some p
    | _ => none

/-- Whether an effect is a file write. -/
def Effect.isSave : Effect → Bool
  | Effect.save _ _ _ _ _ => true
  | _ => false

/-- Whether an effect is a directory creation. -/
def Effect.isMakedirs : Effect → Bool
  | Effect.makedirs _ _ => true
  | _ => false

/-- Whether an effect is a call to the rasterizer. -/
def Effect.isConvertFromPath : Effect → Bool
  | Effect.convertFromPath _ _ => true
  | _ => false

/-- The fixed parameters the script uses on its external calls:
rasterization at 300 DPI, saves in JPEG format at quality 95 with
optimization on. -/
def effectParamsOk : Effect → Bool
  | Effect.convertFromPath _ d => d == 300
  | Effect.save _ fmt q opt _ => fmt == "JPEG" && q == 95 && opt
  | _ => true

/-- Every file write stores a three-channel RGB image. -/
def effectRGBOk : Effect → Bool
  | Effect.save _ _ _ _ img => img.mode == "RGB"
  | _ => true

/-- A concrete three-page document: an RGB page, a transparent RGBA page
and a palette page. -/
def oracleImgs : List Image :=
  [⟨"RGB", 0⟩, ⟨"RGBA", 1⟩, ⟨"P", 2⟩]

/-- An oracle for a run where every external call succeeds. -/
def oracleOk : Oracle :=
  ⟨Except.ok oracleImgs, none, fun _ => none⟩

/-- An oracle for a run where `convert_from_path` raises. -/
def oracleBadPDF : Oracle :=
  ⟨Except.error "Unable to get page count.", none, fun _ => none⟩

/-- An oracle for a run where saving page 2 raises. -/
def oracleSaveFail : Oracle :=
  ⟨Except.ok oracleImgs, none, fun j => if j = 2 then some "No space left on device" else none⟩

/-- An oracle for a run where `os.makedirs` raises. -/
def oracleMkdirFail : Oracle :=
  ⟨Except.ok oracleImgs, some "Permission denied", fun _ => none⟩

/-- A file system holding one stale file from an earlier, longer run. -/
def fsStale : FS :=
  ⟨fun _ => false, fun q => if q = "out/page_09.jpg" then some ⟨"RGB", 7⟩ else none⟩

/-- An oracle for a successful run over a one-page document. -/
def oracle1page : Oracle :=
  ⟨Except.ok [⟨"RGB", 0⟩], none, fun _ => none⟩

/- ## Helper lemmas -/

set_option maxRecDepth 4000 in
set_option maxHeartbeats 1000000 in
theorem pad2_inj100 : ∀ i j : Fin 100, pad2 i.val = pad2 j.val → i = j := by
  decide

theorem pad2_len100 : ∀ i : Fin 100, (pad2 i.val).length = 2 := by
  decide

theorem pageFileName_data (i : Nat) :
    (pageFileName i).data = "page_".data ++ (pad2 i).data ++ ".jpg".data := by
  unfold pageFileName
  rw [String.data_append, String.data_append]

theorem strStartsWithSep_pageFileName (i : Nat) :
    strStartsWithSep (pageFileName i) = false := by
  unfold strStartsWithSep
  rw [pageFileName_data]
  rfl

theorem string_append_cancel_left {s t u : String} (h : s ++ t = s ++ u) : t = u := by
  have h2 := congrArg String.data h
  rw [String.data_append, String.data_append] at h2
  exact String.ext (List.append_cancel_left h2)

theorem pageFileName_inj {a b : Nat} (ha : a ≤ 99) (hb : b ≤ 99)
    (h : pageFileName a = pageFileName b) : a = b := by
  have hd := congrArg String.data h
  rw [pageFileName_data, pageFileName_data] at hd
  have h2 : (pad2 a).data = (pad2 b).data :=
    List.append_cancel_left (List.append_cancel_right hd)
  have h3 := pad2_inj100 ⟨a, by omega⟩ ⟨b, by omega⟩ (String.ext h2)
  exact congrArg Fin.val h3

theorem ospath_join_page_inj (dir : String) {a b : Nat} (ha : a ≤ 99) (hb : b ≤ 99)
    (h : ospath_join dir (pageFileName a) = ospath_join dir (pageFileName b)) : a = b := by
  unfold ospath_join at h
  rw [strStartsWithSep_pageFileName, strStartsWithSep_pageFileName] at h
  simp only [Bool.false_eq_true, if_false] at h
  by_cases hd : dir = "" ∨ strEndsWithSep dir = true
  · rw [if_pos hd, if_pos hd] at h
    exact pageFileName_inj ha hb (string_append_cancel_left h)
  · rw [if_neg hd, if_neg hd] at h
    exact pageFileName_inj ha hb (string_append_cancel_left h)

theorem converted_mode (img : Image) :
    (if img.mode ≠ "RGB" then img.convert "RGB" else img).mode = "RGB" := by
  by_cases h : img.mode = "RGB" <;> simp [Image.convert, h]

theorem saveLoop_ok (dir : String) (o : Oracle) (hs : ∀ j, o.saveResult j = none) :
    ∀ (imgs : List Image) (i : Nat),
      (saveLoop dir o i imgs).1 = none ∧
      savePaths (saveLoop dir o i imgs).2 =
        (List.range imgs.length).map fun k => ospath_join dir (pageFileName (i + k)) := by
  intro imgs
  induction imgs with
  | nil =>
    intro i
    exact ⟨rfl, rfl⟩
  | cons img rest ih =>
    intro i
    refine ⟨?_, ?_⟩
    · show (saveLoop dir o i (img :: rest)).1 = none
      simp only [saveLoop, hs i]
      exact (ih (i + 1)).1
    · simp only [saveLoop, hs i, savePaths, List.filterMap_cons, List.length_cons,
        List.range_succ_eq_map, List.map_cons, List.map_map]
      refine congrArg₂ _ (by rw [Nat.add_zero]) ?_
      have h2 := (ih (i + 1)).2
      simp only [savePaths] at h2
      rw [h2]
      refine List.map_congr_left fun k _ => ?_
      have hik : i + 1 + k = i + Nat.succ k := by omega
      rw [hik]
      rfl

theorem saveLoop_fail (dir : String) (o : Oracle) (k : Nat) (e : String)
    (hk : o.saveResult k = some e) (hb : ∀ j, j < k → o.saveResult j = none) :
    ∀ (imgs : List Image) (i : Nat), i ≤ k → k < i + imgs.length →
      (saveLoop dir o i imgs).1 = some e ∧
      savePaths (saveLoop dir o i imgs).2 =
        (List.range (k - i)).map fun j => ospath_join dir (pageFileName (i + j)) := by
  intro imgs
  induction imgs with
  | nil =>
    intro i h1 h2
    exfalso
    simp at h2
    omega
  | cons img rest ih =>
    intro i h1 h2
    by_cases hik : i = k
    · subst hik
      refine ⟨?_, ?_⟩
      · show (saveLoop dir o i (img :: rest)).1 = some e
        simp only [saveLoop, hk]
      · simp [saveLoop, hk, savePaths]
    · have hlt : i < k := by omega
      have hnone := hb i hlt
      have hrec := ih (i + 1) (by omega) (by simp at h2 ⊢; omega)
      refine ⟨?_, ?_⟩
      · show (saveLoop dir o i (img :: rest)).1 = some e
        simp only [saveLoop, hnone]
        exact hrec.1
      · simp only [saveLoop, hnone, savePaths, List.filterMap_cons]
        have hki : k - i = (k - (i + 1)) + 1 := by omega
        rw [hki, List.range_succ_eq_map, List.map_cons, List.map_map]
        refine congrArg₂ _ (by rw [Nat.add_zero]) ?_
        have h2' := hrec.2
        simp only [savePaths] at h2'
        rw [h2']
        refine List.map_congr_left fun j _ => ?_
        have hij : i + 1 + j = i + Nat.succ j := by omega
        rw [hij]
        rfl

theorem saveLoop_all_ok (dir : String) (o : Oracle) :
    ∀ (imgs : List Image) (i : Nat), ∀ ef ∈ (saveLoop dir o i imgs).2,
      (effectParamsOk ef && effectRGBOk ef) = true := by
  intro imgs
  induction imgs with
  | nil =>
    intro i ef h
    exact absurd h (List.not_mem_nil ef)
  | cons img rest ih =>
    intro i ef h
    cases hs : o.saveResult i with
    | some e =>
      simp only [saveLoop, hs] at h
      exact absurd h (List.not_mem_nil ef)
    | none =>
      simp only [saveLoop, hs, List.mem_cons] at h
      rcases h with h | h | h
      · subst h
        simp only [effectParamsOk, effectRGBOk, converted_mode]
        rfl
      · subst h
        rfl
      · exact ih (i + 1) ef h

theorem applyEffects_files_nowrite (tr : List Effect) :
    ∀ (fs : FS) (p : String), p ∉ savePaths tr → (applyEffects fs tr).files p = fs.files p := by
  induction tr with
  | nil =>
    intro fs p _
    rfl
  | cons ef rest ih =>
    intro fs p hp
    show (applyEffects (applyEffect fs ef) rest).files p = fs.files p
    cases ef with
    | save q fmt qt opt img =>
      have hq : p ≠ q ∧ p ∉ savePaths rest := by
        simpa [savePaths, List.filterMap_cons] using hp
      rw [ih _ p hq.2]
      simp [applyEffect, hq.1]
    | makedirs d ok =>
      have hp2 : p ∉ savePaths rest := by simpa [savePaths, List.filterMap_cons] using hp
      rw [ih _ p hp2]
      rfl
    | convertFromPath q d =>
      have hp2 : p ∉ savePaths rest := by simpa [savePaths, List.filterMap_cons] using hp
      rw [ih _ p hp2]
      rfl
    | output m =>
      have hp2 : p ∉ savePaths rest := by simpa [savePaths, List.filterMap_cons] using hp
      rw [ih _ p hp2]
      rfl

theorem applyEffects_files_mono (tr : List Effect) :
    ∀ (fs : FS) (p : String), (applyEffects fs tr).files p = none → fs.files p = none := by
  induction tr with
  | nil =>
    intro fs p h
    exact h
  | cons ef rest ih =>
    intro fs p h
    have h2 : (applyEffect fs ef).files p = none := ih _ p h
    cases ef with
    | save q fmt qt opt img =>
      by_cases hq : p = q
      · simp [applyEffect, hq] at h2
      · simpa [applyEffect, hq] using h2
    | makedirs d ok => exact h2
    | convertFromPath q d => exact h2
    | output m => exact h2

theorem applyEffects_pure (tr : List Effect)
    (h : ∀ ef ∈ tr, ef.isSave = false ∧ ef.isMakedirs = false) :
    ∀ fs : FS, applyEffects fs tr = fs := by
  induction tr with
  | nil =>
    intro fs
    rfl
  | cons ef rest ih =>
    intro fs
    have hef := h ef (List.mem_cons_self ef rest)
    have hfs : applyEffect fs ef = fs := by
      cases ef with
      | save q fmt qt opt img => simp [Effect.isSave] at hef
      | makedirs d ok => simp [Effect.isMakedirs] at hef
      | convertFromPath q d => rfl
      | output m => rfl
    show applyEffects (applyEffect fs ef) rest = fs
    rw [hfs]
    exact ih (fun e he => h e (List.mem_cons_of_mem ef he)) fs

theorem extract_trace_all_ok (pdf_path output_dir : String) (o : Oracle) :
    ((extract_pdf_pages_as_jpg pdf_path output_dir o).2.all
      fun ef => effectParamsOk ef && effectRGBOk ef) = true := by
  cases hr : o.rasterize with
  | error e =>
    simp [extract_pdf_pages_as_jpg, hr, effectParamsOk, effectRGBOk]
  | ok images =>
    cases hm : o.makedirsResult with
    | some e =>
      simp [extract_pdf_pages_as_jpg, hr, hm, effectParamsOk, effectRGBOk]
    | none =>
      have hloop := saveLoop_all_ok output_dir o images 1
      cases hl : (saveLoop output_dir o 1 images).1 with
      | some e =>
        simp only [extract_pdf_pages_as_jpg, hr, hm, hl]
        simp [List.all_append, List.all_cons, effectParamsOk, effectRGBOk]
        exact fun ef hef => by
          have h := hloop ef hef
          simp only [Bool.and_eq_true] at h
          exact ⟨h.1, h.2⟩
      | none =>
        simp only [extract_pdf_pages_as_jpg, hr, hm, hl]
        simp [List.all_append, List.all_cons, effectParamsOk, effectRGBOk]
        exact fun ef hef => by
          have h := hloop ef hef
          simp only [Bool.and_eq_true] at h
          exact ⟨h.1, h.2⟩

theorem extract_mkdir_mem (pdf_path output_dir : String) (o : Oracle) (images : List Image)
    (hr : o.rasterize = Except.ok images) (hm : o.makedirsResult = none) :
    Effect.makedirs output_dir true ∈ (extract_pdf_pages_as_jpg pdf_path output_dir o).2 := by
  cases hl : (saveLoop output_dir o 1 images).1 with
  | some e => simp [extract_pdf_pages_as_jpg, hr, hm, hl]
  | none => simp [extract_pdf_pages_as_jpg, hr, hm, hl]

/- ## Claim theorems -/

/-- C1: for every valid N-page PDF successfully rasterized (and with the
directory creation and every save succeeding), `extract_pdf_pages_as_jpg`
writes exactly N output files, named `page_01.jpg` through `page_NN.jpg`
(1-based, contiguous, and — for N < 100 — pairwise distinct, so no gaps
and no extras), into the output directory, and returns N, the count of
pages processed. -/
theorem extract_success_exact_files
    (pdf_path output_dir : String) (o : Oracle) (images : List Image)
    (hr : o.rasterize = Except.ok images) (hm : o.makedirsResult = none)
    (hs : ∀ j, o.saveResult j = none) :
    (extract_pdf_pages_as_jpg pdf_path output_dir o).1 = images.length ∧
    savePaths (extract_pdf_pages_as_jpg pdf_path output_dir o).2 =
      (List.range images.length).map
        (fun k => ospath_join output_dir (pageFileName (k + 1))) ∧
    (images.length < 100 →
      (savePaths (extract_pdf_pages_as_jpg pdf_path output_dir o).2).Nodup) := by
  have hloop := saveLoop_ok output_dir o hs images 1
  have hpaths : savePaths (extract_pdf_pages_as_jpg pdf_path output_dir o).2 =
      (List.range images.length).map
        (fun k => ospath_join output_dir (pageFileName (k + 1))) := by
    simp only [extract_pdf_pages_as_jpg, hloop.1, hr, hm]
    simp only [savePaths, List.filterMap_append, List.filterMap_cons, List.filterMap_nil]
    have h2 := hloop.2
    simp only [savePaths] at h2
    simp only [h2, List.append_nil, List.nil_append]
    exact List.map_congr_left fun k _ => by rw [Nat.add_comm]
  refine ⟨?_, hpaths, fun hlen => ?_⟩
  · simp only [extract_pdf_pages_as_jpg, hloop.1, hr, hm]
  · rw [hpaths]
    refine List.Nodup.map_on ?_ (List.nodup_range images.length)
    intro x hx y hy hxy
    rw [List.mem_range] at hx hy
    have := ospath_join_page_inj output_dir (by omega) (by omega) hxy
    omega

/-- Witness for C1: the three-page document of `oracleOk`, extracted into
"out", yields count 3 and exactly the files page_01.jpg, page_02.jpg,
page_03.jpg. -/
theorem extract_success_exact_files_w :
    (extract_pdf_pages_as_jpg "doc.pdf" "out" oracleOk).1 = 3 ∧
    savePaths (extract_pdf_pages_as_jpg "doc.pdf" "out" oracleOk).2 =
      ["out/page_01.jpg", "out/page_02.jpg", "out/page_03.jpg"] ∧
    (savePaths (extract_pdf_pages_as_jpg "doc.pdf" "out" oracleOk).2).Nodup := by
  have h := extract_success_exact_files "doc.pdf" "out" oracleOk oracleImgs rfl rfl
    (fun _ => rfl)
  refine ⟨h.1, ?_, h.2.2 (by decide)⟩
  rw [h.2.1]
  decide

/-- C2: whenever rasterization, directory creation or a save raises, the
exception is caught as one generic category: the function returns the
sentinel count 0 (never propagating the exception — it is total), prints
"Error extracting PDF pages: " followed by the failure's description, and
performs no cleanup: applying its trace never erases an existing file, and
in the save-failure case the files written are exactly the pages saved
before the failure. -/
theorem extract_failure_handling
    (pdf_path output_dir : String) (o : Oracle) (e : String)
    (hfail :
      o.rasterize = Except.error e ∨
      (∃ images, o.rasterize = Except.ok images ∧ o.makedirsResult = some e) ∨
      (∃ images k, o.rasterize = Except.ok images ∧ o.makedirsResult = none ∧
        1 ≤ k ∧ k ≤ images.length ∧ o.saveResult k = some e ∧
        ∀ j, j < k → o.saveResult j = none)) :
    (extract_pdf_pages_as_jpg pdf_path output_dir o).1 = 0 ∧
    Effect.output ("Error extracting PDF pages: " ++ e) ∈
      (extract_pdf_pages_as_jpg pdf_path output_dir o).2 ∧
    (∀ (fs : FS) (p : String),
      (applyEffects fs (extract_pdf_pages_as_jpg pdf_path output_dir o).2).files p = none →
      fs.files p = none) ∧
    (∀ images k, o.rasterize = Except.ok images → o.makedirsResult = none →
      1 ≤ k → k ≤ images.length → o.saveResult k = some e →
      (∀ j, j < k → o.saveResult j = none) →
      savePaths (extract_pdf_pages_as_jpg pdf_path output_dir o).2 =
        (List.range (k - 1)).map
          (fun j => ospath_join output_dir (pageFileName (j + 1)))) := by
  have hprefix : ∀ images k, o.rasterize = Except.ok images → o.makedirsResult = none →
      1 ≤ k → k ≤ images.length → o.saveResult k = some e →
      (∀ j, j < k → o.saveResult j = none) →
      savePaths (extract_pdf_pages_as_jpg pdf_path output_dir o).2 =
        (List.range (k - 1)).map
          (fun j => ospath_join output_dir (pageFileName (j + 1))) := by
    intro images k hr hm hk1 hk2 hke hkb
    have hloop := saveLoop_fail output_dir o k e hke hkb images 1 hk1 (by omega)
    simp only [extract_pdf_pages_as_jpg, hr, hm, hloop.1]
    simp only [savePaths, List.filterMap_append, List.filterMap_cons, List.filterMap_nil]
    have h2 := hloop.2
    simp only [savePaths] at h2
    simp only [h2, List.append_nil, List.nil_append]
    exact List.map_congr_left fun j _ => by rw [Nat.add_comm]
  refine ⟨?_, ?_, fun fs p => applyEffects_files_mono _ fs p, hprefix⟩
  · rcases hfail with hr | ⟨images, hr, hm⟩ | ⟨images, k, hr, hm, hk1, hk2, hke, hkb⟩
    · simp [extract_pdf_pages_as_jpg, hr]
    · simp [extract_pdf_pages_as_jpg, hr, hm]
    · have hloop := saveLoop_fail output_dir o k e hke hkb images 1 hk1 (by omega)
      simp [extract_pdf_pages_as_jpg, hr, hm, hloop.1]
  · rcases hfail with hr | ⟨images, hr, hm⟩ | ⟨images, k, hr, hm, hk1, hk2, hke, hkb⟩
    · simp [extract_pdf_pages_as_jpg, hr]
    · simp [extract_pdf_pages_as_jpg, hr, hm]
    · have hloop := saveLoop_fail output_dir o k e hke hkb images 1 hk1 (by omega)
      simp [extract_pdf_pages_as_jpg, hr, hm, hloop.1]

/-- Witness for C2: with `oracleSaveFail` (page 2 of three fails to save),
extraction into "out" returns 0, prints the error text, and has written
exactly page_01.jpg. -/
theorem extract_failure_handling_w :
    (extract_pdf_pages_as_jpg "doc.pdf" "out" oracleSaveFail).1 = 0 ∧
    Effect.output ("Error extracting PDF pages: " ++ "No space left on device") ∈
      (extract_pdf_pages_as_jpg "doc.pdf" "out" oracleSaveFail).2 ∧
    savePaths (extract_pdf_pages_as_jpg "doc.pdf" "out" oracleSaveFail).2 =
      ["out/page_01.jpg"] := by
  have hb : ∀ j, j < 2 → oracleSaveFail.saveResult j = none := by
    intro j hj
    simp only [oracleSaveFail]
    rw [if_neg (by omega)]
  have h := extract_failure_handling "doc.pdf" "out" oracleSaveFail "No space left on device"
    (Or.inr (Or.inr ⟨oracleImgs, 2, rfl, rfl, by omega, by decide, rfl, hb⟩))
  refine ⟨h.1, h.2.1, ?_⟩
  rw [h.2.2.2 oracleImgs 2 rfl rfl (by omega) (by decide) rfl hb]
  decide

/-- C3: when the given PDF path does not exist, the entry point prints an
error naming the missing file and terminates with exit code 1; the trace
shows the extractor was never invoked (no rasterizer call) and the file
system — in particular any output directory — is left unchanged. -/
theorem mainEntry_missing_pdf (pdf_file : String) (outputArg : Option String) (o : Oracle) :
    (mainEntry pdf_file outputArg false o).exitCode = 1 ∧
    (mainEntry pdf_file outputArg false o).trace =
      [Effect.output ("Error: PDF file '" ++ pdf_file ++ "' not found!")] ∧
    ((mainEntry pdf_file outputArg false o).trace.all
      fun ef => !ef.isConvertFromPath && !ef.isSave && !ef.isMakedirs) = true ∧
    ∀ fs : FS, applyEffects fs (mainEntry pdf_file outputArg false o).trace = fs := by
  refine ⟨rfl, rfl, rfl, fun fs => rfl⟩

/-- C4: every file write in any run's trace stores an image whose color
mode is "RGB": a page whose mode has an alpha channel or any non-RGB
color model is converted to three-channel RGB before saving, so every
produced JPEG has a three-channel, no-alpha representation. -/
theorem extract_saves_rgb (pdf_path output_dir : String) (o : Oracle) :
    ((extract_pdf_pages_as_jpg pdf_path output_dir o).2.all effectRGBOk) = true := by
  have h := extract_trace_all_ok pdf_path output_dir o
  rw [List.all_eq_true] at h ⊢
  intro ef hef
  have h2 := h ef hef
  simp only [Bool.and_eq_true] at h2
  exact h2.2

/-- C5: every run rasterizes at exactly 300 DPI and every save uses the
JPEG format with quality 95 and optimization enabled, for all inputs. -/
theorem extract_fixed_parameters (pdf_path output_dir : String) (o : Oracle) :
    ((extract_pdf_pages_as_jpg pdf_path output_dir o).2.all effectParamsOk) = true := by
  have h := extract_trace_all_ok pdf_path output_dir o
  rw [List.all_eq_true] at h ⊢
  intro ef hef
  have h2 := h ef hef
  simp only [Bool.and_eq_true] at h2
  exact h2.1

/-- C6: the page number in a file name is zero-padded to a minimum width
of 2: below 10 a leading zero is added, from 10 to 99 the name has exactly
two digits, and from 100 on the padding reserves no extra digits — the
full decimal representation appears (e.g. page_100.jpg) — so lexicographic
file-name order can disagree with numeric page order beyond 99. -/
theorem pad2_zero_padding (i : Nat) :
    (i < 10 → pad2 i = "0" ++ Nat.repr i) ∧
    (10 ≤ i → i ≤ 99 → (pad2 i).length = 2) ∧
    (100 ≤ i → pad2 i = Nat.repr i) ∧
    pageFileName 100 = "page_100.jpg" ∧
    (pageFileName 100).data < (pageFileName 99).data ∧ 99 < 100 := by
  refine ⟨fun h => ?_, fun h1 h2 => ?_, fun h => ?_, by decide, by decide, by omega⟩
  · unfold pad2
    rw [if_pos h]
  · exact pad2_len100 ⟨i, by omega⟩
  · unfold pad2
    rw [if_neg (by omega)]

/-- Witness for C6: page 5 is named with a leading zero, page 42 with two
digits, page 100 with its full three digits, and page_100.jpg sorts before
page_99.jpg. -/
theorem pad2_zero_padding_w :
    pad2 5 = "05" ∧ (pad2 42).length = 2 ∧ pad2 100 = "100" ∧
    (pageFileName 100).data < (pageFileName 99).data := by
  refine ⟨?_, (pad2_zero_padding 42).2.1 (by omega) (by omega), ?_,
    (pad2_zero_padding 100).2.2.2.2.1⟩
  · rw [(pad2_zero_padding 5).1 (by omega)]
    decide
  · rw [(pad2_zero_padding 100).2.2.1 (by omega)]
    decide

/-- C7: neither the extractor nor the entry point ever deletes or clears
existing files: applying either trace leaves every path outside the
written page files unchanged and never turns an existing file into a
missing one, so a re-run with fewer pages leaves a prior run's
higher-numbered files untouched. -/
theorem no_deletion (pdf_path output_dir pdf2 : String) (outputArg : Option String)
    (pe : Bool) (o o2 : Oracle) (fs fs2 : FS) (p q : String) :
    (p ∉ savePaths (extract_pdf_pages_as_jpg pdf_path output_dir o).2 →
      (applyEffects fs (extract_pdf_pages_as_jpg pdf_path output_dir o).2).files p =
        fs.files p) ∧
    ((applyEffects fs (extract_pdf_pages_as_jpg pdf_path output_dir o).2).files p = none →
      fs.files p = none) ∧
    (q ∉ savePaths (mainEntry pdf2 outputArg pe o2).trace →
      (applyEffects fs2 (mainEntry pdf2 outputArg pe o2).trace).files q = fs2.files q) ∧
    ((applyEffects fs2 (mainEntry pdf2 outputArg pe o2).trace).files q = none →
      fs2.files q = none) :=
  ⟨applyEffects_files_nowrite _ fs p, applyEffects_files_mono _ fs p,
   applyEffects_files_nowrite _ fs2 q, applyEffects_files_mono _ fs2 q⟩

/-- Witness for C7: re-running over a one-page document into "out", where
a stale out/page_09.jpg from a longer prior run exists, leaves that stale
file exactly as it was. -/
theorem no_deletion_w :
    (applyEffects fsStale
        (extract_pdf_pages_as_jpg "doc.pdf" "out" oracle1page).2).files "out/page_09.jpg" =
      fsStale.files "out/page_09.jpg" := by
  have h := (no_deletion "doc.pdf" "out" "doc.pdf" none true oracle1page oracle1page
    fsStale fsStale "out/page_09.jpg" "out/page_09.jpg").1
  exact h (by decide)

/-- C8: when the file-existence pre-check passes, the process exit status
is 0 regardless of the extraction outcome: a zero returned count only
yields the printed failure notice, and a positive count yields the success
summary naming the count and the destination. -/
theorem mainEntry_exit_status (pdf_file : String) (outputArg : Option String) (o : Oracle) :
    (mainEntry pdf_file outputArg true o).exitCode = 0 ∧
    ((extract_pdf_pages_as_jpg pdf_file (outputArg.getD "pdf_images") o).1 = 0 →
      Effect.output "❌ Failed to extract pages" ∈
        (mainEntry pdf_file outputArg true o).trace) ∧
    (∀ n, (extract_pdf_pages_as_jpg pdf_file (outputArg.getD "pdf_images") o).1 = n →
      0 < n →
      Effect.output ("\n✅ Successfully extracted " ++ Nat.repr n ++ " pages from "
          ++ pdf_file) ∈ (mainEntry pdf_file outputArg true o).trace ∧
      Effect.output ("📁 Images saved in: " ++ outputArg.getD "pdf_images" ++ "/") ∈
        (mainEntry pdf_file outputArg true o).trace) := by
  refine ⟨?_, fun h0 => ?_, fun n hn hpos => ?_⟩
  · by_cases h : (extract_pdf_pages_as_jpg pdf_file (outputArg.getD "pdf_images") o).1 > 0 <;>
      simp [mainEntry, h]
  · simp [mainEntry, h0]
  · subst hn
    simp [mainEntry, hpos]

/-- Witness for C8: on a corrupt PDF (pre-check passed, rasterization
fails), the process still exits with status 0 and prints the failure
notice. -/
theorem mainEntry_exit_status_w :
    (mainEntry "doc.pdf" none true oracleBadPDF).exitCode = 0 ∧
    Effect.output "❌ Failed to extract pages" ∈
      (mainEntry "doc.pdf" none true oracleBadPDF).trace := by
  have h := mainEntry_exit_status "doc.pdf" none oracleBadPDF
  exact ⟨h.1, h.2.1 rfl⟩

/-- C9: when the `--output`/`-o` flag is omitted, the entry point behaves
exactly as if "pdf_images" had been given: that relative path (it does not
start with the separator) is the directory passed to the extractor, and a
run that reaches the saving stage creates it. -/
theorem mainEntry_default_output (pdf_file : String) (pe : Bool) (o : Oracle) :
    mainEntry pdf_file none pe o = mainEntry pdf_file (some "pdf_images") pe o ∧
    strStartsWithSep "pdf_images" = false ∧
    (∀ images, o.rasterize = Except.ok images → o.makedirsResult = none →
      Effect.makedirs "pdf_images" true ∈ (mainEntry pdf_file none true o).trace) := by
  refine ⟨rfl, rfl, fun images hr hm => ?_⟩
  have hmem := extract_mkdir_mem pdf_file "pdf_images" o images hr hm
  by_cases h : (extract_pdf_pages_as_jpg pdf_file "pdf_images" o).1 > 0 <;>
    simp only [mainEntry, Option.getD] <;>
    rw [if_neg (by simp)] <;>
    [rw [if_pos h]; rw [if_neg h]] <;>
    exact List.mem_append_left _ hmem

/-- Witness for C9: on the successful three-page run with `--output`
omitted, the run is identical to one given "pdf_images" explicitly, and
the default directory is created. -/
theorem mainEntry_default_output_w :
    mainEntry "doc.pdf" none true oracleOk =
      mainEntry "doc.pdf" (some "pdf_images") true oracleOk ∧
    Effect.makedirs "pdf_images" true ∈ (mainEntry "doc.pdf" none true oracleOk).trace := by
  have h := mainEntry_default_output "doc.pdf" true oracleOk
  exact ⟨h.1, h.2.2 oracleImgs rfl rfl⟩

/-- C10: if rasterization itself fails, the file system is left completely
unchanged: the trace holds no file write and no directory creation —
those occur only after `convert_from_path` returns — so applying the trace
to any file system state gives it back unchanged. -/
theorem rasterize_fail_fs_unchanged (pdf_path output_dir : String) (o : Oracle) (e : String)
    (hr : o.rasterize = Except.error e) :
    ((extract_pdf_pages_as_jpg pdf_path output_dir o).2.all
      fun ef => !ef.isSave && !ef.isMakedirs) = true ∧
    ∀ fs : FS, applyEffects fs (extract_pdf_pages_as_jpg pdf_path output_dir o).2 = fs := by
  constructor
  · simp [extract_pdf_pages_as_jpg, hr, Effect.isSave, Effect.isMakedirs]
  · intro fs
    simp only [extract_pdf_pages_as_jpg, hr]
    rfl

/-- Witness for C10: rasterizing the corrupt PDF of `oracleBadPDF` writes
nothing, creates no directory, and leaves the `fsStale` file system
exactly as it was. -/
theorem rasterize_fail_fs_unchanged_w :
    ((extract_pdf_pages_as_jpg "doc.pdf" "out" oracleBadPDF).2.all
      fun ef => !ef.isSave && !ef.isMakedirs) = true ∧
    applyEffects fsStale (extract_pdf_pages_as_jpg "doc.pdf" "out" oracleBadPDF).2 = fsStale := by
  have h := rasterize_fail_fs_unchanged "doc.pdf" "out" oracleBadPDF
    "Unable to get page count." rfl
  exact ⟨h.1, h.2 fsStale⟩
